import Mathlib

/-!
Verification development for the kaspanode transaction service.

The repository has three express handlers for POST /createTransaction:
* src/unnamed/part_000 : multi-UTXO greedy selection, dust-thresholded change
  output, per-input Schnorr signature scripts, broadcast payload;
* src/index.js : single-UTXO variant (first candidate with amount at least
  100000), unconditional change output;
* src/unnamed/part_001 : unsigned-transaction-only variant.

The definitions below are a shallow embedding of those handlers.  Amounts
after the floating-point boundary conversion are JavaScript BigInt values,
modelled as Nat / Int.  The points where the code casts a BigInt back to a
JavaScript Number (binary64) are modelled by jsNumber, which performs the
IEEE-754 round-to-nearest-ties-to-even rounding of an integer to 53 bits of
significand.  External collaborators (key parsing, script derivation from an
address, the Schnorr signer, the REST ledger) are supplied as functions in an
Env record, and the network and crypto effects the handler performs are
recorded in an Effect trace.
-/

/-- Number of significand bits of an IEEE-754 binary64 value; integers with
absolute value at most 2 ^ 53 are exactly representable. -/
def doubleMantissaBound : ℕ := 2 ^ 53

/-- Bit length of a natural number (0 for 0), via an explicit fuel argument
(fuel n suffices since the value halves at every step). -/
def bitLenAux : ℕ → ℕ → ℕ
  | 0, _ => 0
  | fuel + 1, n => if n = 0 then 0 else bitLenAux fuel (n / 2) + 1

/-- Bit length of a natural number: 0 for 0, otherwise one more than the
exponent of the leading binary digit. -/
def bitLen (n : ℕ) : ℕ := bitLenAux n n

/-- Round a natural number to the nearest IEEE-754 binary64 value
(round-to-nearest, ties to even), returned as a natural number.  Values up to
2 ^ 53 are exact; above that the value is rounded to a multiple of the unit in
the last place of its binade.  This models what JavaScript Number(bigint)
does to a non-negative BigInt. -/
def roundToDouble (n : ℕ) : ℕ :=
  if n ≤ doubleMantissaBound then n
  else
    let k := bitLen n - 53
    let u := 2 ^ k
    let q := n / u
    let r := n % u
    if 2 * r < u then q * u
    else if u < 2 * r then (q + 1) * u
    else if q % 2 = 0 then q * u else (q + 1) * u

/-- JavaScript Number(x) applied to a BigInt x: IEEE-754 rounding, symmetric
in sign. -/
def jsNumber (z : ℤ) : ℤ :=
  if z < 0 then -(roundToDouble z.natAbs : ℤ) else (roundToDouble z.natAbs : ℤ)

/-- Character class of the address regex in the source,
/^kaspa:[a-z0-9]{61,63}$/ : a lowercase ASCII letter or an ASCII digit. -/
def isKaspaChar (c : Char) : Bool :=
  (decide ('a' ≤ c) && decide (c ≤ 'z')) || (decide ('0' ≤ c) && decide (c ≤ '9'))

/-- kaspaRegex.test from the handlers: the string is the literal prefix
kaspa: followed by 61 to 63 characters from the class [a-z0-9]. -/
def kaspaRegexTest (s : String) : Bool :=
  (s.data.take 6 == "kaspa:".data)
    && decide (61 ≤ s.data.length - 6) && decide (s.data.length - 6 ≤ 63)
    && (s.data.drop 6).all isKaspaChar

/-- Outpoint of a candidate UTXO, u.outpoint in the REST response. -/
structure Outpoint where
  transactionId : String
  index : ℕ
deriving DecidableEq, Repr

/-- The scriptPublicKey object of a UTXO entry or of a payload output. -/
structure SPKData where
  version : ℕ
  scriptPublicKey : String
deriving DecidableEq, Repr

/-- u.utxoEntry in the REST response: the amount in sompi (smallest unit,
a non-negative integer the code reads through BigInt) and the locking
script. -/
structure UtxoEntryData where
  amount : ℕ
  scriptPublicKey : SPKData
deriving DecidableEq, Repr

/-- A candidate UTXO as delivered by the ledger indexer. -/
structure Utxo where
  outpoint : Outpoint
  utxoEntry : UtxoEntryData
deriving DecidableEq, Repr

/-- Sum of the amounts of a list of UTXOs (BigInt arithmetic in the code). -/
def utxoSum (us : List Utxo) : ℕ := (us.map (fun u => u.utxoEntry.amount)).sum

/-- The UTXO selection loop of src/unnamed/part_000 lines 132-138: push each
candidate in order, add its amount to the running sum, and stop as soon as
the running sum reaches totalNeeded.  inputs and inputSum are the loop
accumulators (initially empty and zero). -/
def selectUtxosLoop (totalNeeded : ℕ) :
    List Utxo → List Utxo → ℕ → List Utxo × ℕ
  | [], inputs, inputSum => (inputs, inputSum)
  | u :: rest, inputs, inputSum =>
    let inputs1 := inputs ++ [u]
    let inputSum1 := inputSum + u.utxoEntry.amount
    if totalNeeded ≤ inputSum1 then (inputs1, inputSum1)
    else selectUtxosLoop totalNeeded rest inputs1 inputSum1

/-- Dust threshold of part_000 line 171, BigInt(Math.floor(0.02 * 1e8)).
The double product 0.02 * 1e8 rounds to exactly 2000000, so the constant is
2000000 sompi. -/
def dustThreshold : ℕ := 2000000

/-- An input of the core-lib Transaction object, as constructed by
new Transaction.Input.PublicKey in the handlers.  outputSatoshis is
satoshis: Number(u.utxoEntry.amount), a JavaScript Number. -/
structure TxInput where
  prevTxId : String
  outputIndex : ℕ
  script : String
  sequenceNumber : ℕ
  outputSatoshis : ℤ
deriving DecidableEq, Repr

/-- An output of the core-lib Transaction object; satoshis is a JavaScript
Number. -/
structure TxOutput where
  script : String
  satoshis : ℤ
deriving DecidableEq, Repr

/-- Build one Transaction input from a UTXO (part_000 lines 148-159). -/
def mkTxInput (u : Utxo) : TxInput :=
  { prevTxId := u.outpoint.transactionId
    outputIndex := u.outpoint.index
    script := u.utxoEntry.scriptPublicKey.scriptPublicKey
    sequenceNumber := 0
    outputSatoshis := jsNumber u.utxoEntry.amount }

/-- The output list of the transaction built by part_000 lines 164-176: one
recipient output, then a change output paid back to the sender only when the
change reaches the dust threshold.  The satoshis fields go through
Number(...), modelled by jsNumber. -/
def txOutputsBuilt (scriptOf : String → String) (sender recipient : String)
    (amountToSend changeAmount : ℕ) : List TxOutput :=
  [{ script := scriptOf recipient, satoshis := jsNumber amountToSend }]
    ++ (if dustThreshold ≤ changeAmount then
          [{ script := scriptOf sender, satoshis := jsNumber changeAmount }]
        else [])

/-- A signed input as placed in the broadcast payload (part_000 lines
192-200). -/
structure SignedInput where
  previousOutpoint : Outpoint
  signatureScript : String
  sequence : ℕ
  sigOpCount : ℕ
deriving DecidableEq, Repr

/-- Sign the transaction inputs in order (part_000 lines 179-201).  sigOf i
is the hex encoding of the 64-byte Schnorr signature the external core-lib
signer produces for input index i; the handler wraps it between the fixed
length-prefix byte 41 and the sighash-type suffix byte 01. -/
def signInputs (sigOf : ℕ → String) : List TxInput → ℕ → List SignedInput
  | [], _ => []
  | i :: rest, idx =>
    { previousOutpoint := { transactionId := i.prevTxId, index := i.outputIndex }
      signatureScript := "41" ++ sigOf idx ++ "01"
      sequence := i.sequenceNumber
      sigOpCount := 1 } :: signInputs sigOf rest (idx + 1)

/-- An output object of the broadcast payload. -/
structure PayloadOutput where
  amount : ℤ
  scriptPublicKey : SPKData
deriving DecidableEq, Repr

/-- The restApiJson value posted to the /transactions endpoint. -/
structure BroadcastPayload where
  version : ℕ
  inputs : List SignedInput
  outputs : List PayloadOutput
  lockTime : ℕ
  subnetworkId : String
  allowOrphan : Bool
deriving DecidableEq, Repr

/-- The transaction construction, signing and serialization of part_000
lines 143-219, for already-selected inputs and an already-computed change
amount: inputs are mapped to Transaction inputs, outputs are the recipient
output plus the dust-gated change output, every input is signed, and the
result is shaped into the REST payload. -/
def buildPayload (scriptOf : String → String) (sigOf : ℕ → String)
    (sender recipient : String) (inputs : List Utxo)
    (amountToSend changeAmount : ℕ) : BroadcastPayload :=
  let txIns := inputs.map mkTxInput
  let outs := txOutputsBuilt scriptOf sender recipient amountToSend changeAmount
  { version := 0
    inputs := signInputs sigOf txIns 0
    outputs := outs.map (fun o =>
      { amount := o.satoshis, scriptPublicKey := { version := 0, scriptPublicKey := o.script } })
    lockTime := 0
    subnetworkId := "0000000000000000000000000000000000000000"
    allowOrphan := true }

/-- JSON value at the collaborator boundary (enough structure for the
balance field the handlers pass through). -/
inductive JsonVal where
  | str (s : String)
  | num (n : ℤ)
  | null
deriving DecidableEq, Repr

/-- The request body of POST /createTransaction.  Absent JSON fields are
none; the JavaScript truthiness test !s on a string also rejects the empty
string.  The numeric fields are the caller-supplied decimal amounts (IEEE
doubles, every one of which is a rational number). -/
structure TxRequest where
  senderAddress : Option String
  recipientAddress : Option String
  amount : Option ℚ
  fee : Option ℚ
  privateKey : Option String
deriving DecidableEq, Repr

/-- Error outcomes of the handlers (the HTTP 400/500 bodies). -/
inductive ApiError where
  | missingParams
  | invalidSenderAddress
  | invalidRecipientAddress
  | recipientEqualsSender
  | nonPositiveAmount
  | negativeFee
  | insufficientFunds
  | noSuitableUtxo
  | internal
deriving DecidableEq, Repr

/-- The validation sequence shared verbatim by the handlers (part_000 lines
81-118, index.js lines 82-119): presence of every parameter, address format
of sender then recipient, recipient distinct from sender, positive amount,
non-negative fee.  Returns the first failing check, none when all pass. -/
def validateRequest (req : TxRequest) : Option ApiError :=
  if req.senderAddress.getD "" = "" ∨ req.recipientAddress.getD "" = "" ∨
      req.amount = none ∨ req.fee = none ∨ req.privateKey.getD "" = "" then
    some ApiError.missingParams
  else if kaspaRegexTest (req.senderAddress.getD "") = false then
    some ApiError.invalidSenderAddress
  else if kaspaRegexTest (req.recipientAddress.getD "") = false then
    some ApiError.invalidRecipientAddress
  else if req.recipientAddress.getD "" = req.senderAddress.getD "" then
    some ApiError.recipientEqualsSender
  else if req.amount.getD 0 ≤ 0 then
    some ApiError.nonPositiveAmount
  else if req.fee.getD 0 < 0 then
    some ApiError.negativeFee
  else none

/-- Observable crypto and network effects of one handler run, in order. -/
inductive Effect where
  | parsePrivateKey
  | fetchUtxos (address : String)
  | sign
  | broadcast
  | fetchBalance (address : String)
deriving DecidableEq, Repr

/-- The successful JSON response of the transaction handlers. -/
structure TxSuccessResponse where
  status : String
  transactionId : String
  rawTransaction : String
  transferredAmount : String
  chargedAmount : String
  walletBalance : JsonVal
deriving DecidableEq, Repr

/-- External collaborators of the handlers.  toSompi models the boundary
conversion BigInt(Math.floor(x * 1e8)) (an IEEE-754 double computation,
abstracted as a function of the numeric value); parseKey models
new PrivateKey(hex) (none when the constructor throws); utxosOf is the
ledger UTXO endpoint; scriptOf models
new Script(new Address(a)).toBuffer().toString format hex; sigOf i is the
Schnorr signature hex for input index i; bcastId and bcastRaw are the fields
of the broadcast response; balanceOf is the value of
balanceResp.data.balance (null when the lookup fails). -/
structure Env where
  toSompi : ℚ → ℕ
  parseKey : String → Option String
  utxosOf : String → List Utxo
  scriptOf : String → String
  sigOf : ℕ → String
  bcastId : BroadcastPayload → String
  bcastRaw : BroadcastPayload → String
  balanceOf : String → JsonVal

/-- The POST /createTransaction handler of src/unnamed/part_000 (lines
77-250): validate, convert amount and fee to sompi, parse the private key,
fetch the sender UTXOs, greedily select inputs, fail when the selection
cannot cover amount plus fee, otherwise build and sign the transaction,
broadcast it, fetch the sender balance best-effort, and answer with the
decimal-string amounts and the pass-through balance. -/
def createTransaction (env : Env) (req : TxRequest) :
    Except ApiError TxSuccessResponse × List Effect :=
  match validateRequest req with
  | some e => (Except.error e, [])
  | none =>
    let sender := req.senderAddress.getD ""
    let recipient := req.recipientAddress.getD ""
    let amountToSend := env.toSompi (req.amount.getD 0)
    let feeAmount := env.toSompi (req.fee.getD 0)
    let totalNeeded := amountToSend + feeAmount
    match env.parseKey (req.privateKey.getD "") with
    | none => (Except.error ApiError.internal, [Effect.parsePrivateKey])
    | some _ =>
      let utxos := env.utxosOf sender
      let sel := selectUtxosLoop totalNeeded utxos [] 0
      if sel.2 < totalNeeded then
        (Except.error ApiError.insufficientFunds,
         [Effect.parsePrivateKey, Effect.fetchUtxos sender])
      else
        let changeAmount := sel.2 - totalNeeded
        let payload := buildPayload env.scriptOf env.sigOf sender recipient
          sel.1 amountToSend changeAmount
        (Except.ok
          { status := "OK"
            transactionId := env.bcastId payload
            rawTransaction := env.bcastRaw payload
            transferredAmount := toString amountToSend
            chargedAmount := toString totalNeeded
            walletBalance := env.balanceOf sender },
         [Effect.parsePrivateKey, Effect.fetchUtxos sender, Effect.sign,
          Effect.broadcast, Effect.fetchBalance sender])

/-- The change amount of the single-UTXO handler of src/index.js line 149:
BigInt(selectedUtxo.utxoEntry.amount) - amountToSend - feeAmount, a signed
BigInt that may be negative. -/
def singleChange (utxoAmount amountToSend feeAmount : ℕ) : ℤ :=
  (utxoAmount : ℤ) - (amountToSend : ℤ) - (feeAmount : ℤ)

/-- Transaction construction and serialization of src/index.js lines
132-222: one input, recipient output and an unconditional change output,
amounts passed through Number(...). -/
def singlePayload (scriptOf : String → String) (sigOf : ℕ → String)
    (sender recipient : String) (u : Utxo)
    (amountToSend feeAmount : ℕ) : BroadcastPayload :=
  let changeAmount := singleChange u.utxoEntry.amount amountToSend feeAmount
  { version := 0
    inputs := signInputs sigOf [mkTxInput u] 0
    outputs :=
      [ { amount := jsNumber amountToSend
          scriptPublicKey := { version := 0, scriptPublicKey := scriptOf recipient } }
      , { amount := jsNumber changeAmount
          scriptPublicKey := { version := 0, scriptPublicKey := scriptOf sender } } ]
    lockTime := 0
    subnetworkId := "0000000000000000000000000000000000000000"
    allowOrphan := true }

/-- The POST /createTransaction handler of src/index.js (lines 77-255):
same validation, then the first UTXO whose amount is at least the fixed
constant 100000 is selected (independently of amount and fee); the change
output is added unconditionally. -/
def createTransactionSingle (env : Env) (req : TxRequest) :
    Except ApiError TxSuccessResponse × List Effect :=
  match validateRequest req with
  | some e => (Except.error e, [])
  | none =>
    let sender := req.senderAddress.getD ""
    let recipient := req.recipientAddress.getD ""
    match env.parseKey (req.privateKey.getD "") with
    | none => (Except.error ApiError.internal, [Effect.parsePrivateKey])
    | some _ =>
      let utxos := env.utxosOf sender
      match utxos.find? (fun u => decide (100000 ≤ u.utxoEntry.amount)) with
      | none =>
        (Except.error ApiError.noSuitableUtxo,
         [Effect.parsePrivateKey, Effect.fetchUtxos sender])
      | some u =>
        let amountToSend := env.toSompi (req.amount.getD 0)
        let feeAmount := env.toSompi (req.fee.getD 0)
        let payload := singlePayload env.scriptOf env.sigOf sender recipient u
          amountToSend feeAmount
        (Except.ok
          { status := "OK"
            transactionId := env.bcastId payload
            rawTransaction := env.bcastRaw payload
            transferredAmount := toString amountToSend
            chargedAmount := toString (amountToSend + feeAmount)
            walletBalance := env.balanceOf sender },
         [Effect.parsePrivateKey, Effect.fetchUtxos sender, Effect.sign,
          Effect.broadcast, Effect.fetchBalance sender])

theorem utxoSum_nil : utxoSum [] = 0 := rfl

theorem utxoSum_cons (u : Utxo) (us : List Utxo) :
    utxoSum (u :: us) = u.utxoEntry.amount + utxoSum us := by
  simp [utxoSum]

theorem utxoSum_append (a b : List Utxo) :
    utxoSum (a ++ b) = utxoSum a + utxoSum b := by
  simp [utxoSum]

/-- When the candidates cannot cover the target, the selection loop consumes
them all and returns their total. -/
theorem selectUtxosLoop_fail (t : ℕ) :
    ∀ (us acc : List Utxo) (s : ℕ), s + utxoSum us < t →
      selectUtxosLoop t us acc s = (acc ++ us, s + utxoSum us) := by
  intro us
  induction us with
  | nil => intro acc s h; simp [selectUtxosLoop, utxoSum_nil]
  | cons u rest ih =>
    intro acc s h
    rw [utxoSum_cons] at h
    have hlt : ¬ t ≤ s + u.utxoEntry.amount := by omega
    simp only [selectUtxosLoop, if_neg hlt]
    rw [ih (acc ++ [u]) (s + u.utxoEntry.amount) (by omega)]
    simp [List.append_assoc, utxoSum_cons]
    omega

/-- When the remaining candidates can cover the target and the running sum is
still short of it, the loop stops at the first prefix whose sum reaches the
target: the final sum is the sum of the selected list, it reaches the target,
and dropping the last selected candidate falls short of the target again. -/
theorem selectUtxosLoop_success (t : ℕ) :
    ∀ (us acc : List Utxo) (s : ℕ),
      s = utxoSum acc → s < t → t ≤ s + utxoSum us →
      t ≤ (selectUtxosLoop t us acc s).2 ∧
      (selectUtxosLoop t us acc s).2 = utxoSum (selectUtxosLoop t us acc s).1 ∧
      utxoSum (selectUtxosLoop t us acc s).1.dropLast < t ∧
      ∃ k, 1 ≤ k ∧ (selectUtxosLoop t us acc s).1 = acc ++ us.take k := by
  intro us
  induction us with
  | nil =>
    intro acc s hs hlt hge
    rw [utxoSum_nil] at hge
    omega
  | cons u rest ih =>
    intro acc s hs hlt hge
    rw [utxoSum_cons] at hge
    by_cases h : t ≤ s + u.utxoEntry.amount
    · simp only [selectUtxosLoop, if_pos h]
      refine ⟨h, ?_, ?_, 1, le_refl 1, ?_⟩
      · rw [utxoSum_append, utxoSum_cons, utxoSum_nil, hs]
        omega
      · rw [List.dropLast_concat, ← hs]
        exact hlt
      · simp [List.take]
    · simp only [selectUtxosLoop, if_neg h]
      have hs1 : s + u.utxoEntry.amount = utxoSum (acc ++ [u]) := by
        rw [utxoSum_append, utxoSum_cons, utxoSum_nil, hs]
        omega
      obtain ⟨h1, h2, h3, k, hk, hsel⟩ :=
        ih (acc ++ [u]) (s + u.utxoEntry.amount) hs1 (by omega) (by omega)
      refine ⟨h1, h2, h3, k + 1, by omega, ?_⟩
      rw [hsel, List.take_succ_cons, List.append_assoc]
      rfl

/-- A valid sender address for tests: kaspa: followed by 61 letters q. -/
def goodSender : String := "kaspa:" ++ String.mk (List.replicate 61 'q')

/-- A valid recipient address for tests: kaspa: followed by 61 letters p. -/
def goodRecipient : String := "kaspa:" ++ String.mk (List.replicate 61 'p')

/-- A 128-character signature hex string (64 bytes of 0xaa). -/
def demoSig : String := String.mk (List.replicate 128 'a')

/-- A candidate UTXO worth 1.5 units (150000000 sompi). -/
def demoUtxo : Utxo :=
  { outpoint := { transactionId := "aabb", index := 1 }
    utxoEntry := { amount := 150000000
                   scriptPublicKey := { version := 0, scriptPublicKey := "20aa" } } }

/-- Exact rational floor of q * 1e8, used as the toSompi oracle of the demo
environments (it agrees with the JavaScript double computation
BigInt(Math.floor(x * 1e8)) on the exactly-representable demo inputs). -/
def floorTimes1e8 (q : ℚ) : ℕ := (Int.fdiv (q.num * 100000000) q.den).toNat

/-- A concrete environment: exact rational boundary conversion, identity
script derivation, constant Schnorr signature, ledger holding demoUtxo, and
a numeric balance of 123 sompi. -/
def demoEnv : Env :=
  { toSompi := floorTimes1e8
    parseKey := fun k => some k
    utxosOf := fun _ => [demoUtxo]
    scriptOf := fun a => a
    sigOf := fun _ => demoSig
    bcastId := fun _ => "txid"
    bcastRaw := fun _ => "rawtx"
    balanceOf := fun _ => JsonVal.num 123 }

/-- A fully valid request: send 1 unit with fee 0.0001 units. -/
def demoReq : TxRequest :=
  { senderAddress := some goodSender
    recipientAddress := some goodRecipient
    amount := some 1
    fee := some 0
    privateKey := some "00ff" }

/-- A request whose sender address fails the regex. -/
def badSenderReq : TxRequest :=
  { senderAddress := some "kaspa:WRONG"
    recipientAddress := some goodRecipient
    amount := some 1
    fee := some 0
    privateKey := some "00ff" }

/-- A request whose recipient equals its sender (both well-formed, amount and
fee valid). -/
def selfSendReq : TxRequest :=
  { senderAddress := some goodSender
    recipientAddress := some goodSender
    amount := some 1
    fee := some 0
    privateKey := some "00ff" }

/-- An environment with an empty ledger (no UTXOs for any address). -/
def emptyLedgerEnv : Env :=
  { demoEnv with utxosOf := fun _ => [] }

/-- A small candidate UTXO of amount 100 sompi. -/
def utxoA : Utxo :=
  { outpoint := { transactionId := "cc", index := 0 }
    utxoEntry := { amount := 100, scriptPublicKey := { version := 0, scriptPublicKey := "dd" } } }

/-- C2 (amended: positive target): UTXO selection is the greedy accumulation
over the candidates in the order supplied.  For a positive target, whenever
the candidate total reaches the target the loop stops at a non-empty prefix
of the candidates whose sum reaches the target while the sum without the
last selected candidate is still below it; when the candidate total is below
the target the loop exhausts the candidates, and the handler then fails with
InsufficientFunds after only the key-parse and UTXO-fetch effects, so no
transaction is built, signed or broadcast. -/
theorem greedySelection (t : ℕ) (utxos : List Utxo) (env : Env)
    (req : TxRequest) (ht : 1 ≤ t) :
    (t ≤ utxoSum utxos →
      t ≤ (selectUtxosLoop t utxos [] 0).2 ∧
      (selectUtxosLoop t utxos [] 0).2 = utxoSum (selectUtxosLoop t utxos [] 0).1 ∧
      utxoSum (selectUtxosLoop t utxos [] 0).1.dropLast < t ∧
      ∃ k, 1 ≤ k ∧ (selectUtxosLoop t utxos [] 0).1 = utxos.take k) ∧
    (utxoSum utxos < t →
      selectUtxosLoop t utxos [] 0 = (utxos, utxoSum utxos)) ∧
    (validateRequest req = none →
      env.parseKey (req.privateKey.getD "") ≠ none →
      utxoSum (env.utxosOf (req.senderAddress.getD "")) <
        env.toSompi (req.amount.getD 0) + env.toSompi (req.fee.getD 0) →
      createTransaction env req =
        (Except.error ApiError.insufficientFunds,
         [Effect.parsePrivateKey, Effect.fetchUtxos (req.senderAddress.getD "")])) := by
  refine ⟨?_, ?_, ?_⟩
  · intro htot
    obtain ⟨h1, h2, h3, k, hk, hsel⟩ :=
      selectUtxosLoop_success t utxos [] 0 rfl (by omega) (by omega)
    exact ⟨h1, h2, h3, k, hk, by simpa using hsel⟩
  · intro htot
    simpa using selectUtxosLoop_fail t utxos [] 0 (by omega)
  · intro hv hk hlt
    cases hkk : env.parseKey (req.privateKey.getD "") with
    | none => exact absurd hkk hk
    | some sk =>
      have hsel := selectUtxosLoop_fail
        (env.toSompi (req.amount.getD 0) + env.toSompi (req.fee.getD 0))
        (env.utxosOf (req.senderAddress.getD "")) [] 0 (by omega)
      simp only [createTransaction, hv, hkk, hsel, zero_add]
      rw [if_pos hlt]

/-- C2 counterexample: with target 0 (reachable, since a positive float
amount below 1e-8 converts to 0 sompi and the fee may convert to 0) and a
single candidate of amount 100, the candidate total covers the target, yet
the loop still selects one UTXO (it tests the stop condition only after
adding a candidate) and the sum of all selected candidates except the last,
an empty sum, is not strictly below the target: the minimality clause of the
claim fails for target 0. -/
theorem greedySelectionCounterexample :
    0 ≤ utxoSum [utxoA] ∧
    selectUtxosLoop 0 [utxoA] [] 0 = ([utxoA], 100) ∧
    ¬ utxoSum (selectUtxosLoop 0 [utxoA] [] 0).1.dropLast < 0 := by
  exact ⟨Nat.zero_le _, by decide, by decide⟩

/-- Witness for greedySelection at a concrete input: target 150000000 with
the demo UTXO succeeds, and the handler with an empty ledger fails with
InsufficientFunds after exactly the key-parse and fetch effects. -/
theorem greedySelection_witness :
    150000000 ≤ (selectUtxosLoop 150000000 [demoUtxo] [] 0).2 ∧
    createTransaction emptyLedgerEnv demoReq =
      (Except.error ApiError.insufficientFunds,
       [Effect.parsePrivateKey, Effect.fetchUtxos goodSender]) := by
  constructor
  · exact ((greedySelection 150000000 [demoUtxo] emptyLedgerEnv demoReq
      (by decide)).1 (by decide)).1
  · exact (greedySelection 150000000 [demoUtxo] emptyLedgerEnv demoReq
      (by decide)).2.2 (by decide) (by decide) (by decide)

/-- C4: every validation failure (missing parameter, malformed sender or
recipient address, recipient equal to sender, non-positive amount, negative
fee) makes the handler answer with that error and an empty effect trace: no
key parsing, no signing, no UTXO fetch, no broadcast, no balance lookup.  In
particular a request whose recipient equals its sender is always rejected
with an empty effect trace, whatever its amount and fee. -/
theorem validationBeforeEffects (env : Env) (req : TxRequest) :
    (∀ e, validateRequest req = some e →
      createTransaction env req = (Except.error e, [])) ∧
    (req.recipientAddress = req.senderAddress →
      ∃ e, createTransaction env req = (Except.error e, [])) := by
  have hfail : ∀ e, validateRequest req = some e →
      createTransaction env req = (Except.error e, []) := by
    intro e he
    simp only [createTransaction, he]
  refine ⟨hfail, ?_⟩
  intro heq
  cases hv : validateRequest req with
  | some e => exact ⟨e, hfail e hv⟩
  | none =>
    exfalso
    unfold validateRequest at hv
    split_ifs at hv with h1 h2 h3 h4 h5 h6
    exact h4 (by rw [heq])

/-- Witness for validationBeforeEffects: a malformed sender address is
rejected with no effects, and a self-send request is rejected with no
effects. -/
theorem validationBeforeEffects_witness :
    createTransaction demoEnv badSenderReq =
      (Except.error ApiError.invalidSenderAddress, []) ∧
    ∃ e, createTransaction demoEnv selfSendReq = (Except.error e, []) :=
  ⟨(validationBeforeEffects demoEnv badSenderReq).1
      ApiError.invalidSenderAddress (by decide),
   (validationBeforeEffects demoEnv selfSendReq).2 rfl⟩

/-- Integers up to 2 ^ 53 are unchanged by the binary64 rounding. -/
theorem roundToDouble_of_le (n : ℕ) (h : n ≤ doubleMantissaBound) :
    roundToDouble n = n := by
  simp [roundToDouble, h]

/-- Number(bigint) is exact on natural numbers up to 2 ^ 53. -/
theorem jsNumber_natCast (n : ℕ) (h : n ≤ doubleMantissaBound) :
    jsNumber (n : ℤ) = n := by
  have h0 : ¬ ((n : ℤ) < 0) := by omega
  simp [jsNumber, h0, roundToDouble_of_le n h]

/-- C3: in every build of the multi-UTXO handler, the serialized output list
is the recipient output followed by a change output paid to the sender
exactly when the change reaches the dust threshold of 2000000 sompi
(0.02 units); below the threshold the output list is the recipient output
alone, so the change output is present iff change is at least 2000000, and
the order is recipient first, change second. -/
theorem changeOutputPolicy (scriptOf : String → String) (sigOf : ℕ → String)
    (sender recipient : String) (inputs : List Utxo)
    (amountToSend changeAmount : ℕ) :
    dustThreshold = 2000000 ∧
    (buildPayload scriptOf sigOf sender recipient inputs amountToSend changeAmount).outputs =
      { amount := jsNumber (amountToSend : ℤ),
        scriptPublicKey := { version := 0, scriptPublicKey := scriptOf recipient } } ::
        (if dustThreshold ≤ changeAmount then
          [{ amount := jsNumber (changeAmount : ℤ),
             scriptPublicKey := { version := 0, scriptPublicKey := scriptOf sender } }]
         else []) ∧
    ((buildPayload scriptOf sigOf sender recipient inputs amountToSend
        changeAmount).outputs.length = 2 ↔ dustThreshold ≤ changeAmount) ∧
    ((buildPayload scriptOf sigOf sender recipient inputs amountToSend
        changeAmount).outputs.length = 1 ↔ changeAmount < dustThreshold) := by
  refine ⟨rfl, ?_, ?_, ?_⟩
  · by_cases h : dustThreshold ≤ changeAmount <;>
      simp [buildPayload, txOutputsBuilt, h]
  · by_cases h : dustThreshold ≤ changeAmount <;>
      simp [buildPayload, txOutputsBuilt, h]
  · by_cases h : dustThreshold ≤ changeAmount <;>
      simp [buildPayload, txOutputsBuilt, h]
    omega

/-- A UTXO whose amount exceeds the exactly-representable double range:
2 ^ 53 + 100000001 sompi. -/
def hugeUtxo : Utxo :=
  { outpoint := { transactionId := "ee", index := 0 }
    utxoEntry := { amount := 2 ^ 53 + 100000001
                   scriptPublicKey := { version := 0, scriptPublicKey := "ff" } } }

/-- C1 (amended: amounts within the 2 ^ 53 double-exact range): value
conservation for every successful build — the sum of the serialized output
amounts plus the fee plus the forfeited sub-dust change equals the sum of
the selected input amounts, provided the recipient amount and the change
are at most 2 ^ 53, the range on which the JavaScript Number conversion in
the payload is exact. -/
theorem valueConservation (scriptOf : String → String) (sigOf : ℕ → String)
    (sender recipient : String) (inputs : List Utxo)
    (amountToSend feeAmount : ℕ)
    (hcover : amountToSend + feeAmount ≤ utxoSum inputs)
    (hamt : amountToSend ≤ doubleMantissaBound)
    (hchg : utxoSum inputs - (amountToSend + feeAmount) ≤ doubleMantissaBound) :
    ((buildPayload scriptOf sigOf sender recipient inputs amountToSend
        (utxoSum inputs - (amountToSend + feeAmount))).outputs.map
          PayloadOutput.amount).sum
      + (feeAmount : ℤ)
      + ((if utxoSum inputs - (amountToSend + feeAmount) < dustThreshold then
            utxoSum inputs - (amountToSend + feeAmount) else 0 : ℕ) : ℤ)
      = (utxoSum inputs : ℤ) := by
  by_cases h : dustThreshold ≤ utxoSum inputs - (amountToSend + feeAmount)
  · rw [if_neg (by omega)]
    simp [buildPayload, txOutputsBuilt, h, jsNumber_natCast _ hamt,
      jsNumber_natCast _ hchg]
    omega
  · rw [if_pos (by omega)]
    simp [buildPayload, txOutputsBuilt, h, jsNumber_natCast _ hamt]
    omega

/-- C1 counterexample: with a selected input of 2 ^ 53 + 100000001 sompi,
amount 100000000 and fee 0, the change is 2 ^ 53 + 1, above dust but not
representable as a binary64 value; the serialized change output amount is
rounded to 2 ^ 53, so the sum of the serialized output amounts plus the fee
(plus zero forfeited change) misses the selected input sum by one sompi. -/
theorem valueConservationCounterexample :
    ((buildPayload (fun a => a) (fun _ => demoSig) goodSender goodRecipient
        [hugeUtxo] 100000000 (2 ^ 53 + 1)).outputs.map PayloadOutput.amount).sum
      + (0 : ℤ) + (0 : ℤ) ≠ (utxoSum [hugeUtxo] : ℤ) := by decide

/-- Witness for valueConservation: selecting the 1.5-unit demo UTXO for
amount 1 unit and fee 0 gives change 50000000, above dust, and the payload
amounts conserve value exactly. -/
theorem valueConservation_witness :
    ((buildPayload (fun a => a) (fun _ => demoSig) goodSender goodRecipient
        [demoUtxo] 100000000
        (utxoSum [demoUtxo] - (100000000 + 0))).outputs.map
          PayloadOutput.amount).sum
      + (0 : ℤ)
      + ((if utxoSum [demoUtxo] - (100000000 + 0) < dustThreshold then
            utxoSum [demoUtxo] - (100000000 + 0) else 0 : ℕ) : ℤ)
      = (utxoSum [demoUtxo] : ℤ) :=
  valueConservation (fun a => a) (fun _ => demoSig) goodSender goodRecipient
    [demoUtxo] 100000000 0 (by decide) (by decide) (by decide)

/-- A lowercase hexadecimal digit (the alphabet of toString format hex on a
Buffer). -/
def isHexChar (c : Char) : Bool :=
  (decide ('0' ≤ c) && decide (c ≤ '9')) || (decide ('a' ≤ c) && decide (c ≤ 'f'))

/-- Byte length of a hex-encoded string: two hex characters per byte. -/
def hexByteLen (s : String) : ℕ := s.data.length / 2

/-- Every signed input produced by signInputs carries a signature script of
the fixed shape 41-signature-01 for the signature at some index. -/
theorem signInputs_signatureScript (sigOf : ℕ → String) :
    ∀ (l : List TxInput) (idx : ℕ) (si : SignedInput),
      si ∈ signInputs sigOf l idx →
      ∃ i, si.signatureScript = "41" ++ sigOf i ++ "01" := by
  intro l
  induction l with
  | nil => intro idx si h; cases h
  | cons a rest ih =>
    intro idx si h
    cases h with
    | head => exact ⟨idx, rfl⟩
    | tail _ h2 => exact ih (idx + 1) si h2

/-- C5 (amended: 66 bytes): assuming the external Schnorr signer yields
128-hex-character (64-byte) signatures, every signed input of every build
has a signature script of the exact shape 41, then the 128 hex characters
of the signature, then 01 — 132 hex characters in total, i.e. 66 bytes (the
prefix byte 0x41 encodes 65, the length of the signature-plus-sighash data
that follows it). -/
theorem signatureScriptShape (scriptOf : String → String) (sigOf : ℕ → String)
    (sender recipient : String) (inputs : List Utxo)
    (amountToSend changeAmount : ℕ)
    (hsig : ∀ i, (sigOf i).data.length = 128 ∧ (sigOf i).data.all isHexChar = true) :
    ∀ si ∈ (buildPayload scriptOf sigOf sender recipient inputs amountToSend
        changeAmount).inputs,
      (∃ mid, si.signatureScript = "41" ++ mid ++ "01" ∧
        mid.data.length = 128 ∧ mid.data.all isHexChar = true) ∧
      hexByteLen si.signatureScript = 66 := by
  intro si hmem
  have hmem2 : si ∈ signInputs sigOf (inputs.map mkTxInput) 0 := hmem
  obtain ⟨i, hscript⟩ := signInputs_signatureScript sigOf (inputs.map mkTxInput) 0 si hmem2
  refine ⟨⟨sigOf i, hscript, (hsig i).1, (hsig i).2⟩, ?_⟩
  rw [hscript]
  unfold hexByteLen
  rw [String.data_append, String.data_append, List.length_append,
    List.length_append, (hsig i).1]
  decide

/-- The signed input of the demo build. -/
def demoSignedInput : SignedInput :=
  { previousOutpoint := { transactionId := "aabb", index := 1 }
    signatureScript := "41" ++ demoSig ++ "01"
    sequence := 0
    sigOpCount := 1 }

set_option maxRecDepth 8000 in
/-- Witness for signatureScriptShape at the demo build: its only signed
input has the 41-128-hex-01 signature script of 66 bytes. -/
theorem signatureScriptShape_witness :
    (∃ mid, demoSignedInput.signatureScript = "41" ++ mid ++ "01" ∧
      mid.data.length = 128 ∧ mid.data.all isHexChar = true) ∧
    hexByteLen demoSignedInput.signatureScript = 66 := by
  have h : demoSig.data.length = 128 ∧ demoSig.data.all isHexChar = true := by decide
  exact signatureScriptShape (fun a => a) (fun _ => demoSig) goodSender goodRecipient
    [demoUtxo] 100000000 49990000 (fun _ => h) demoSignedInput (by decide)

set_option maxRecDepth 8000 in
/-- C5 counterexample: the signature script of the demo build's signed input
is 66 bytes (132 hex characters), not 65 bytes as the claim states. -/
theorem signatureScriptShapeCounterexample :
    ((buildPayload (fun a => a) (fun _ => demoSig) goodSender goodRecipient
        [demoUtxo] 100000000 49990000).inputs.map
          (fun si => hexByteLen si.signatureScript)) = [66] ∧
    (66 : ℕ) ≠ 65 := by
  exact ⟨by decide, by decide⟩

/-- Modelled from the spec: the 32-character base-32 alphabet of Kaspa
bech32 addresses, the reading of the specification text "lowercase
base-32-alphabet characters" (a base-32 alphabet has 32 symbols; this is
the one the target network uses, which excludes b, i, o and 1). -/
def base32Alphabet : List Char :=
  ['q', 'p', 'z', 'r', 'y', '9', 'x', '8', 'g', 'f', '2', 't', 'v', 'd',
   'w', '0', 's', '3', 'j', 'n', '5', '4', 'k', 'h', 'c', 'e', '6', 'm',
   'u', 'a', '7', 'l']

/-- Modelled from the spec: acceptance as the claim words it — the literal
network prefix followed by 61 to 63 lowercase base-32-alphabet
characters. -/
def specAddressAccepts (s : String) : Bool :=
  (s.data.take 6 == "kaspa:".data)
    && decide (61 ≤ s.data.length - 6) && decide (s.data.length - 6 ≤ 63)
    && (s.data.drop 6).all (fun c => base32Alphabet.contains c)

/-- C6 counterexample: kaspa: followed by 61 letters b is accepted by the
code's regex (b is a lowercase letter), although b is not a character of
the base-32 address alphabet, so the claimed acceptance set differs from
the code's. -/
theorem addressRegexCounterexample :
    kaspaRegexTest ("kaspa:" ++ String.mk (List.replicate 61 'b')) = true ∧
    specAddressAccepts ("kaspa:" ++ String.mk (List.replicate 61 'b')) = false := by
  exact ⟨by decide, by decide⟩

/-- C6 (amended: character class [a-z0-9]): an address string passes the
code's validation iff it is the literal prefix kaspa: followed by 61 to 63
characters, each a lowercase ASCII letter or an ASCII digit — a
36-character class, a strict superset of the 32-character base-32
alphabet. -/
theorem addressRegexSpec (s : String) :
    kaspaRegexTest s = true ↔
      ∃ rest : List Char, s.data = "kaspa:".data ++ rest ∧
        61 ≤ rest.length ∧ rest.length ≤ 63 ∧
        ∀ c ∈ rest, ('a' ≤ c ∧ c ≤ 'z') ∨ ('0' ≤ c ∧ c ≤ '9') := by
  unfold kaspaRegexTest
  simp only [Bool.and_eq_true, beq_iff_eq, decide_eq_true_eq, List.all_eq_true]
  constructor
  · rintro ⟨⟨⟨htake, h61⟩, h63⟩, hall⟩
    refine ⟨s.data.drop 6, ?_, ?_, ?_, ?_⟩
    · rw [← htake]
      exact (List.take_append_drop 6 s.data).symm
    · rw [List.length_drop]
      exact h61
    · rw [List.length_drop]
      exact h63
    · intro c hc
      have h := hall c hc
      simpa [isKaspaChar] using h
  · rintro ⟨rest, hdata, h61, h63, hforall⟩
    have hpre : ("kaspa:".data : List Char).length = 6 := by decide
    have hlen : s.data.length = 6 + rest.length := by
      rw [hdata, List.length_append, hpre]
    refine ⟨⟨⟨?_, ?_⟩, ?_⟩, ?_⟩
    · rw [hdata]
      exact List.take_left' hpre
    · omega
    · omega
    · intro c hc
      rw [hdata, List.drop_left' hpre] at hc
      simpa [isKaspaChar] using hforall c hc

/-- C7 (amended: exactness holds only below 2 ^ 53): after the single
boundary conversion, selection and change use exact BigInt integer
arithmetic, but the output and payload amounts are passed back through
JavaScript Number; that conversion is the identity — and hence the
serialized payload amounts are the exact integer amounts — whenever the
amounts are at most 2 ^ 53. -/
theorem payloadAmountsExact (scriptOf : String → String) (sigOf : ℕ → String)
    (sender recipient : String) (inputs : List Utxo)
    (amountToSend changeAmount : ℕ)
    (hamt : amountToSend ≤ doubleMantissaBound)
    (hchg : changeAmount ≤ doubleMantissaBound) :
    (∀ n : ℕ, n ≤ doubleMantissaBound → jsNumber (n : ℤ) = (n : ℤ)) ∧
    (buildPayload scriptOf sigOf sender recipient inputs amountToSend
        changeAmount).outputs.map PayloadOutput.amount =
      (amountToSend : ℤ) ::
        (if dustThreshold ≤ changeAmount then [(changeAmount : ℤ)] else []) := by
  refine ⟨jsNumber_natCast, ?_⟩
  by_cases h : dustThreshold ≤ changeAmount <;>
    simp [buildPayload, txOutputsBuilt, h, jsNumber_natCast _ hamt,
      jsNumber_natCast _ hchg]

/-- C7 counterexample: a change of 2 ^ 53 + 1 sompi is serialized as
2 ^ 53 — the payload amount produced downstream of the integer arithmetic
differs from the exact integer change, because the code passes the BigInt
change through the floating-point Number conversion. -/
theorem payloadAmountsCounterexample :
    (buildPayload (fun a => a) (fun _ => demoSig) goodSender goodRecipient
        [hugeUtxo] 100000000 (2 ^ 53 + 1)).outputs.map PayloadOutput.amount =
      [(100000000 : ℤ), (2 ^ 53 : ℤ)] ∧
    ((2 ^ 53 : ℤ) ≠ ((2 ^ 53 + 1 : ℕ) : ℤ)) := by
  exact ⟨by decide, by decide⟩

/-- Witness for payloadAmountsExact: amounts 100000000 and change 49990000
are below 2 ^ 53, so the payload amounts are exactly those integers. -/
theorem payloadAmountsExact_witness :
    (buildPayload (fun a => a) (fun _ => demoSig) goodSender goodRecipient
        [demoUtxo] 100000000 49990000).outputs.map PayloadOutput.amount =
      (100000000 : ℤ) ::
        (if dustThreshold ≤ (49990000 : ℕ) then [(49990000 : ℤ)] else []) :=
  (payloadAmountsExact (fun a => a) (fun _ => demoSig) goodSender goodRecipient
    [demoUtxo] 100000000 49990000 (by decide) (by decide)).2

/-- C8 (amended: the wallet balance is passed through unconverted): in every
successful response of the multi-UTXO handler, the transferred amount and
the charged amount are decimal strings of the integer sompi amounts, while
walletBalance is returned verbatim as delivered by the balance endpoint (a
JSON number, or null when the lookup fails), not converted to a string. -/
theorem responseAmountStrings (env : Env) (req : TxRequest)
    (resp : TxSuccessResponse) (tr : List Effect)
    (h : createTransaction env req = (Except.ok resp, tr)) :
    (∃ n : ℕ, resp.transferredAmount = toString n) ∧
    (∃ n : ℕ, resp.chargedAmount = toString n) ∧
    resp.walletBalance = env.balanceOf (req.senderAddress.getD "") := by
  cases hv : validateRequest req with
  | some e =>
    rw [show createTransaction env req = (Except.error e, []) by
      simp only [createTransaction, hv]] at h
    simp at h
  | none =>
    cases hk : env.parseKey (req.privateKey.getD "") with
    | none =>
      simp only [createTransaction, hv, hk] at h
      simp at h
    | some sk =>
      simp only [createTransaction, hv, hk] at h
      split at h
      · simp at h
      · simp only [Prod.mk.injEq, Except.ok.injEq] at h
        obtain ⟨hresp, htr⟩ := h
        subst hresp
        exact ⟨⟨_, rfl⟩, ⟨_, rfl⟩, rfl⟩

/-- The response of the successful demo run. -/
def demoResp : TxSuccessResponse :=
  { status := "OK"
    transactionId := "txid"
    rawTransaction := "rawtx"
    transferredAmount := "100000000"
    chargedAmount := "100000000"
    walletBalance := JsonVal.num 123 }

/-- C8 counterexample: a successful run whose balance endpoint returns the
JSON number 123 answers with walletBalance equal to that number, which is
not a decimal string, refuting the claim that all three user-facing amount
fields are decimal strings. -/
theorem responseAmountStringsCounterexample :
    (createTransaction demoEnv demoReq).1 = Except.ok demoResp ∧
    demoResp.walletBalance = JsonVal.num 123 ∧
    ¬ ∃ n : ℕ, demoResp.walletBalance = JsonVal.str (toString n) := by
  refine ⟨rfl, rfl, ?_⟩
  rintro ⟨n, hn⟩
  exact JsonVal.noConfusion hn

/-- Witness for responseAmountStrings at the successful demo run. -/
theorem responseAmountStrings_witness :
    (∃ n : ℕ, demoResp.transferredAmount = toString n) ∧
    (∃ n : ℕ, demoResp.chargedAmount = toString n) ∧
    demoResp.walletBalance = demoEnv.balanceOf (demoReq.senderAddress.getD "") :=
  responseAmountStrings demoEnv demoReq demoResp
    [Effect.parsePrivateKey, Effect.fetchUtxos goodSender, Effect.sign,
     Effect.broadcast, Effect.fetchBalance goodSender] rfl

/-- A UTXO holding exactly the selection constant of src/index.js, 100000
sompi. -/
def smallUtxo : Utxo :=
  { outpoint := { transactionId := "ab", index := 0 }
    utxoEntry := { amount := 100000
                   scriptPublicKey := { version := 0, scriptPublicKey := "99" } } }

/-- The demo environment with a ledger holding only smallUtxo. -/
def smallUtxoEnv : Env := { demoEnv with utxosOf := fun _ => [smallUtxo] }

/-- find? returns the first element of the list satisfying the predicate. -/
theorem find?_eq_some_of_first (p : Utxo → Bool) :
    ∀ (us1 : List Utxo) (u : Utxo) (us2 : List Utxo),
      (∀ v ∈ us1, p v = false) → p u = true →
      List.find? p (us1 ++ u :: us2) = some u := by
  intro us1
  induction us1 with
  | nil =>
    intro u us2 _ hu
    simpa using List.find?_cons_of_pos us2 hu
  | cons a rest ih =>
    intro u us2 hall hu
    have ha : p a = false := hall a (by simp)
    rw [List.cons_append, List.find?_cons_of_neg _ (by simp [ha])]
    exact ih u us2 (fun v hv => hall v (by simp [hv])) hu

/-- The single-UTXO handler reports no-suitable-UTXO exactly when no
candidate of the sender's ledger reaches the constant 100000 sompi. -/
theorem createTransactionSingle_noSuitable_iff (env : Env) (req : TxRequest)
    (hv : validateRequest req = none)
    (hk : env.parseKey (req.privateKey.getD "") ≠ none) :
    (createTransactionSingle env req).1 = Except.error ApiError.noSuitableUtxo ↔
      ∀ u ∈ env.utxosOf (req.senderAddress.getD ""), u.utxoEntry.amount < 100000 := by
  cases hkk : env.parseKey (req.privateKey.getD "") with
  | none => exact absurd hkk hk
  | some sk =>
    cases hf : List.find? (fun u => decide (100000 ≤ u.utxoEntry.amount))
        (env.utxosOf (req.senderAddress.getD "")) with
    | none =>
      have hall : ∀ u ∈ env.utxosOf (req.senderAddress.getD ""),
          u.utxoEntry.amount < 100000 := by
        intro u hu
        have h := List.find?_eq_none.mp hf u hu
        simpa using h
      simp only [createTransactionSingle, hv, hkk, hf]
      exact ⟨fun _ => hall, fun _ => trivial⟩
    | some u =>
      have hmem := List.mem_of_find?_eq_some hf
      have hamt : 100000 ≤ u.utxoEntry.amount := by
        simpa using List.find?_some hf
      simp only [createTransactionSingle, hv, hkk, hf]
      constructor
      · intro habs
        simp at habs
      · intro hall
        exact absurd (hall u hmem) (by omega)

/-- C10: the single-UTXO handler of src/index.js selects the first candidate
whose amount reaches the fixed constant 100000 sompi, independently of the
requested amount and fee (two valid requests with the same sender and key
fail with no-suitable-UTXO in exactly the same cases, whatever their amount
and fee); the failure happens exactly when no candidate reaches the
constant; and the handler proceeds to a successful build even when the
selected UTXO cannot cover amount plus fee, yielding negative change
instead of failing. -/
theorem singleUtxoSelection (env : Env) (req req2 : TxRequest)
    (hv : validateRequest req = none) (hv2 : validateRequest req2 = none)
    (hsender : req2.senderAddress = req.senderAddress)
    (hpk : req2.privateKey = req.privateKey)
    (hk : env.parseKey (req.privateKey.getD "") ≠ none) :
    (∀ (us1 : List Utxo) (u : Utxo) (us2 : List Utxo),
      env.utxosOf (req.senderAddress.getD "") = us1 ++ u :: us2 →
      (∀ v ∈ us1, v.utxoEntry.amount < 100000) →
      100000 ≤ u.utxoEntry.amount →
      List.find? (fun x => decide (100000 ≤ x.utxoEntry.amount))
        (env.utxosOf (req.senderAddress.getD "")) = some u) ∧
    ((createTransactionSingle env req).1 = Except.error ApiError.noSuitableUtxo ↔
      ∀ u ∈ env.utxosOf (req.senderAddress.getD ""), u.utxoEntry.amount < 100000) ∧
    ((createTransactionSingle env req).1 = Except.error ApiError.noSuitableUtxo ↔
      (createTransactionSingle env req2).1 = Except.error ApiError.noSuitableUtxo) ∧
    (createTransactionSingle smallUtxoEnv demoReq).1 = Except.ok
      { status := "OK", transactionId := "txid", rawTransaction := "rawtx",
        transferredAmount := "100000000", chargedAmount := "100000000",
        walletBalance := JsonVal.num 123 } ∧
    singleChange smallUtxo.utxoEntry.amount 100000000 0 < 0 := by
  refine ⟨?_, createTransactionSingle_noSuitable_iff env req hv hk, ?_, rfl, by decide⟩
  · intro us1 u us2 heq hall hu
    rw [heq]
    exact find?_eq_some_of_first _ us1 u us2
      (fun v hv' => by simpa using Nat.not_le.mpr (hall v hv')) (by simpa using hu)
  · have hk2 : env.parseKey (req2.privateKey.getD "") ≠ none := by
      rw [hpk]; exact hk
    have h2 := createTransactionSingle_noSuitable_iff env req2 hv2 hk2
    rw [hsender] at h2
    exact (createTransactionSingle_noSuitable_iff env req hv hk).trans h2.symm

/-- Witness for singleUtxoSelection: with a ledger holding only the
100000-sompi UTXO and a request for 1 unit, the no-suitable-UTXO iff holds
and the selected UTXO is too small, giving negative change. -/
theorem singleUtxoSelection_witness :
    ((createTransactionSingle smallUtxoEnv demoReq).1 =
        Except.error ApiError.noSuitableUtxo ↔
      ∀ u ∈ smallUtxoEnv.utxosOf goodSender, u.utxoEntry.amount < 100000) ∧
    singleChange smallUtxo.utxoEntry.amount 100000000 0 < 0 := by
  have h := singleUtxoSelection smallUtxoEnv demoReq demoReq
    (by decide) (by decide) rfl rfl (by decide)
  exact ⟨h.2.1, h.2.2.2.2⟩

/-- C9: the single-UTXO handler of src/index.js adds the change output
unconditionally: every payload it builds carries exactly two outputs,
recipient first and sender change second, whatever the sign of the change
amount; with the 100000-sompi UTXO and a request for 1 unit the change is
-99900000, the serialized change-output amount is negative, and the handler
still succeeds and broadcasts. -/
theorem singleHandlerUnconditionalChange :
    (∀ (scriptOf : String → String) (sigOf : ℕ → String)
        (sender recipient : String) (u : Utxo) (amountToSend feeAmount : ℕ),
      (singlePayload scriptOf sigOf sender recipient u amountToSend feeAmount).outputs =
        [ { amount := jsNumber (amountToSend : ℤ)
            scriptPublicKey := { version := 0, scriptPublicKey := scriptOf recipient } },
          { amount := jsNumber (singleChange u.utxoEntry.amount amountToSend feeAmount)
            scriptPublicKey := { version := 0, scriptPublicKey := scriptOf sender } } ] ∧
      (singlePayload scriptOf sigOf sender recipient u amountToSend
        feeAmount).outputs.length = 2) ∧
    singleChange smallUtxo.utxoEntry.amount 100000000 0 = -99900000 ∧
    (singlePayload (fun a => a) (fun _ => demoSig) goodSender goodRecipient
        smallUtxo 100000000 0).outputs.map PayloadOutput.amount =
      [(100000000 : ℤ), (-99900000 : ℤ)] ∧
    (createTransactionSingle smallUtxoEnv demoReq).2 =
      [Effect.parsePrivateKey, Effect.fetchUtxos goodSender, Effect.sign,
       Effect.broadcast, Effect.fetchBalance goodSender] ∧
    (-99900000 : ℤ) < 0 := by
  exact ⟨fun scriptOf sigOf sender recipient u a f => ⟨rfl, rfl⟩,
    by decide, by decide, rfl, by decide⟩
